import Mathlib

/-!
Verification of `src/notebooks/dataset_manipulation/postprocess.py`.

The module postprocesses NorESM climate-model output held in xarray
`Dataset` values: it repairs the time coordinate of monthly history files,
trims spin-up months, selects variable subsets by component, rescales units,
rewrites metadata, derives the Ghan aerosol-forcing decomposition variables,
and writes the result out grouped by catalog category.

Shallow embedding conventions:
* numeric array payloads are flattened lists of rationals (the claims under
  study are about exact linear arithmetic, not float rounding);
* attribute dictionaries and `data_vars` are insertion-ordered association
  lists, as Python dicts are;
* timestamps are calendar dates (year, month, day); `datetime64` arithmetic
  is day-stepping over the proleptic Gregorian calendar, `DatetimeNoLeap`
  values are built directly from (year, month, day) fields;
* functions that raise in Python return `Except String`;
* file I/O (glob, open_mfdataset, to_netcdf) is outside the embedding: the
  post-merge part of `create_dataset` is modelled on an already-merged
  dataset, and `save_postprocessed` returns the per-file variable
  selections it writes instead of touching a filesystem.
-/

namespace Postprocess

/-- A calendar date. Used both for `datetime64` values (proleptic Gregorian
calendar) and for `cftime.DatetimeNoLeap` values (where no day arithmetic is
ever performed by the source). -/
structure Date where
  year : Int
  month : Nat
  day : Nat
  deriving DecidableEq, Repr

/-- Gregorian leap-year rule, as used by numpy `datetime64`. -/
def isLeapYear (y : Int) : Bool :=
  (y % 4 == 0 && y % 100 != 0) || (y % 400 == 0)

/-- Number of days of month `m` of year `y` (Gregorian). `0` for an invalid
month index. -/
def daysInMonth (y : Int) (m : Nat) : Nat :=
  match m with
  | 1 => 31
  | 2 => if isLeapYear y then 29 else 28
  | 3 => 31
  | 4 => 30
  | 5 => 31
  | 6 => 30
  | 7 => 31
  | 8 => 31
  | 9 => 30
  | 10 => 31
  | 11 => 30
  | 12 => 31
  | _ => 0

/-- The day after `d` in the Gregorian calendar. -/
def nextDay (d : Date) : Date :=
  if d.day < daysInMonth d.year d.month then ⟨d.year, d.month, d.day + 1⟩
  else if d.month < 12 then ⟨d.year, d.month + 1, 1⟩
  else ⟨d.year + 1, 1, 1⟩

/-- `d + n` days: the embedding of `numpy.timedelta64` addition on
`datetime64` values. -/
def addDays (d : Date) : Nat → Date
  | 0 => d
  | n + 1 => nextDay (addDays d n)

/-- A named array of an xarray `Dataset`: its (flattened) numeric values and
its attribute dictionary. -/
structure DataArray where
  values : List ℚ
  attrs : List (String × String)
  deriving DecidableEq, Repr

/-- An xarray `Dataset` as the source uses it: the data variables (an
insertion-ordered name-to-array dictionary), the `time` coordinate values,
the attributes of the `time` coordinate, and the start bounds of each time
interval (the `nbnd=0` column of the `time_bnds` variable; CLM files name it
`time_bounds`, which `fix_cam_time` renames to `time_bnds` on its working
copy before reading it — the field stands for the bounds under either raw
name). The arrays in `data_vars` are not indexed by the time dimension in
this embedding; the `time` field records the dataset's time steps. -/
structure Dataset where
  data_vars : List (String × DataArray)
  time : List Date
  timeAttrs : List (String × String)
  time_bnds : List Date
  deriving DecidableEq, Repr

/-- Python dict assignment `d[k] = v` on an association list: replace the
first entry with key `k`, keeping its position, or append a new entry. -/
def setEntry {α : Type} (k : String) (v : α) : List (String × α) → List (String × α)
  | [] => [(k, v)]
  | (k', v') :: rest => if k' = k then (k, v) :: rest else (k', v') :: setEntry k v rest

/-- Python dict lookup `d.get(k)` on an association list (first match). -/
def lookupTable {α : Type} (k : String) : List (String × α) → Option α
  | [] => none
  | (k', v) :: rest => if k = k' then some v else lookupTable k rest

/-- The variable names of a dataset, in insertion order
(`list(ds.data_vars)` / `list(ds.keys())`). -/
def varNames (ds : Dataset) : List String :=
  ds.data_vars.map Prod.fst

-- ## Module-level variable lists (postprocess.py lines 5-8)

def atm_always_include : List String :=
  ["LANDFRAC", "GRIDAREA", "gw", "date", "time_bnds"]

def lnd_always_include : List String :=
  ["area", "landfrac", "landmask", "pftmask", "PCT_LANDUNIT"]

def pressure_variables : List String :=
  ["P0", "hyam", "hybm", "PS", "hyai", "hybi", "ilev"]

def Ghan_vars : List String :=
  ["SWDIR", "LWDIR", "DIR", "SWCF", "LWCF", "NCFT", "SW_rest", "LW_rest"]

-- ## fix_cam_time (lines 12-55)

/-- `fix_cam_time(ds, timetype)`: recompute each time value from the start
bound of its interval — `DatetimeNoLeap(year, month, 15)` in mode
`DatetimeNoLeap`, start bound plus a 14-day `timedelta64` in mode
`datetime64` — and reassign the `time` coordinate with the original
coordinate attributes (`ds.assign_coords` passes `ds.time.attrs` along).
Any other mode string raises `ValueError`; nothing is assigned in that
case, so the error branch carries no dataset. -/
def fix_cam_time (ds : Dataset) (timetype : String) : Except String Dataset :=
  if timetype = "DatetimeNoLeap" then
    .ok { ds with
          time := ds.time_bnds.map (fun b => ⟨b.year, b.month, 15⟩),
          timeAttrs := ds.timeAttrs }
  else if timetype = "datetime64" then
    .ok { ds with
          time := ds.time_bnds.map (fun b => addDays b 14),
          timeAttrs := ds.timeAttrs }
  else
    .error "time type not supported. Choose 'DatetimeNoLeap' or 'datetime64'"

-- ## variables_by_component (lines 57-103)

def lnd_vars : List String := ["PCT_NAT_PFT", "TLAI"]

def biogeochem_vars : List String :=
  ["GPP", "NPP", "NEE", "NEP", "STORVEGN", "TOTPFTN", "TOTVEGN",
   "TOTCOLC", "TOTECOSYSC", "TOTPFTC", "TOTVEGC", "STORVEGC"]

def evap_vars : List String :=
  ["QFLX_EVAP_TOT", "FCEV", "FCTR", "FGEV", "QSOIL", "QVEGE", "QVEGT"]

/-- The biogenic-emission (MEGAN) variable list that heads the `LAND`
category when `bvoc` is true. In the source these names are written inline
in the `LAND` entry of `variables_by_component`. -/
def MEG_vars : List String :=
  ["MEG_isoprene", "MEG_limonene", "MEG_myrcene", "MEG_ocimene_t_b",
   "MEG_pinene_a", "MEG_pinene_b", "MEG_sabinene"]

/-- `variables_by_component(comp, bvoc)`: the ordered category-to-variables
catalog of a component. For a component other than `atm` or `lnd` the
source leaves its local `variables` unbound and raising follows at the
`return`; callers validate the component first, and the embedding returns
`[]` for that unreachable case. -/
def variables_by_component (comp : String) (bvoc : Bool) : List (String × List String) :=
  if comp = "atm" then
    [("BVOC", ["SFisoprene", "SFmonoterp"]),
     ("SOA", ["N_AER", "DOD550", "SOA_A1", "SOA_NA", "cb_SOA_A1", "cb_SOA_NA",
              "cb_SOA_A1_OCW", "cb_SOA_NA_OCW"]),
     ("CLOUDPROP", ["ACTNL", "ACTREL", "CDNUMC", "CLDHGH", "CLDLOW", "CLDMED",
                    "CLDTOT", "CLDLIQ", "CLOUD", "CLOUDCOVER_CLUBB", "FCTL",
                    "NUMLIQ", "TGCLDLWP"]),
     ("RADIATIVE", ["FSDS", "FSNS", "FLNT", "FSNT", "FLNT_DRF", "FLNTCDRF",
                    "FSNTCDRF", "FSNT_DRF", "LWCF", "SWCF"]),
     ("TURBFLUXES", ["LHFLX", "SHFLX"])]
  else if comp = "lnd" then
    if bvoc then
      [("LAND", MEG_vars ++ lnd_vars),
       ("BIOGEOCHEM", biogeochem_vars),
       ("ET", evap_vars)]
    else
      [("LAND", lnd_vars),
       ("BIOGEOCHEM", biogeochem_vars),
       ("ET", evap_vars)]
  else []

-- ## create_dataset (lines 107-163)

/-- Python `s.find(sub)` over the characters of `s`: the least index where
`sub` starts, or `-1` when `sub` does not occur. -/
def strFind (s sub : String) : Int :=
  match (List.range (s.length + 1)).find? (fun i => sub.data.isPrefixOf (s.data.drop i)) with
  | some i => (i : Int)
  | none => -1

/-- Python `sub in s` for strings: an occurrence exists, i.e. `find` is
nonnegative. -/
def strContains (s sub : String) : Bool := decide (0 ≤ strFind s sub)

/-- The variable selection that the `else` branch of `create_dataset`
builds before restricting the dataset: the always-included names of the
component, the pressure variables when requested (atmosphere only), and the
flattened catalog. For the land component the catalog's `bvoc` flag is
cleared when `casename.find('OFF') > 0.` — note the strict inequality, so
an occurrence of `OFF` at index 0 does not clear it. -/
def create_dataset_selected_vars (comp casename : String) (pressure_vars : Bool) : List String :=
  let bvoc : Bool := if comp = "lnd" ∧ strFind casename "OFF" > 0 then false else true
  if comp = "atm" then
    (atm_always_include ++ (if pressure_vars then pressure_variables else []))
      ++ ((variables_by_component comp bvoc).map Prod.snd).flatten
  else if comp = "lnd" then
    lnd_always_include ++ ((variables_by_component comp bvoc).map Prod.snd).flatten
  else []

/-- xarray `ds[variables]`: the dataset restricted to the listed variables,
in list order; a missing name raises `KeyError`. -/
def dsSelect (ds : Dataset) (vars : List String) : Except String Dataset :=
  if ∀ v ∈ vars, v ∈ varNames ds then
    .ok { ds with
          data_vars := vars.filterMap (fun v => (lookupTable v ds.data_vars).map (fun da => (v, da))) }
  else
    .error "KeyError: a selected variable is not in the dataset"

/-- The part of `create_dataset` that follows `xr.open_mfdataset`: the
component check (raised before any file access in the source), the optional
time fix on the monthly stream, the spin-up trim
`ds.isel(time=slice(spinup_months, len(ds.time)))`, and the variable
selection unless the full dataset was requested. `ds` is the merged
dataset; `fix_timestamp = none` models passing a falsy value. -/
def create_dataset_post (ds : Dataset) (casename comp history_field : String)
    (full_dset : Bool) (fix_timestamp : Option String) (spinup_months : Nat)
    (pressure_vars : Bool) : Except String Dataset :=
  if comp ≠ "atm" ∧ comp ≠ "lnd" then
    .error "component not supported. Choose 'atm' or 'lnd'"
  else
    let step1 : Except String Dataset :=
      match fix_timestamp with
      | some t => if history_field = "h0" then fix_cam_time ds t else .ok ds
      | none => .ok ds
    match step1 with
    | .error e => .error e
    | .ok ds1 =>
      let ds2 := { ds1 with time := ds1.time.drop spinup_months }
      if full_dset then .ok ds2
      else dsSelect ds2 (create_dataset_selected_vars comp casename pressure_vars)

-- ## fix_units (lines 166-219)

/-- The scale-and-relabel table applied by `fix_units`: mnemonic to
(scale factor, replacement unit string). Stated as data so that the
branching chain of the source can be proved equivalent to a table lookup
(design note 9 of the spec asks for exactly this reading). -/
def unit_scale_table : List (String × (ℚ × String)) :=
  [("SFisoprene", (1000000 * (60 * 60 * 24 * 365), "mg/m$^2$/y")),
   ("SFmonoterp", (1000000 * (60 * 60 * 24 * 365), "mg/m$^2$/y")),
   ("SOA_A1", (1000000000, "$\\mu$g/kg")),
   ("SOA_NA", (1000000000, "$\\mu$g/kg")),
   ("cb_SOA_A1", (1000000, "mg/m$^2$")),
   ("cb_SOA_NA", (1000000, "mg/m$^2$")),
   ("cb_SOA_A1_OCW", (1000000, "mg/m$^2$")),
   ("cb_SOA_NA_OCW", (1000000, "mg/m$^2$")),
   ("ACTNL", (1000000, "cm$^{-3}$")),
   ("CDNUMC", (1 / 10000000000, "1e6 cm$^{-2}$")),
   ("CLDHGH", (1000, "g/kg")),
   ("CLDLOW", (1000, "g/kg")),
   ("CLDMED", (1000, "g/kg")),
   ("CLDLIQ", (1000000, "mg/kg")),
   ("TGCLDLWP", (1000, "g/m$^2$")),
   ("QFLX_EVAP_TOT", (60 * 60 * 24, "mm/day"))]

/-- The label-only table of `fix_units`: mnemonics whose values are left
alone and whose `units` attribute is rewritten. -/
def unit_label_table : List (String × String) :=
  [("FLNT", "W/m$^2$"), ("FSNT", "W/m$^2$"), ("FLNT_DRF", "W/m$^2$"),
   ("FLNTCDRF", "W/m$^2$"), ("FSNT_DRF", "W/m$^2$"), ("FSNTCDRF", "W/m$^2$"),
   ("LHFLX", "W/m$^2$"), ("SHFLX", "W/m$^2$")]

/-- The branch of the `fix_units` loop body taken for variable `var`:
a direct transcription of the if/elif chain (note the duplicated
`var == "CLDMED"` disjunct of the source, kept as written). -/
def fixUnitsVar (var : String) (da : DataArray) : DataArray :=
  if var = "SFisoprene" ∨ var = "SFmonoterp" then
    { values := da.values.map (· * (1000000 * (60 * 60 * 24 * 365))),
      attrs := setEntry "units" "mg/m$^2$/y" da.attrs }
  else if var = "SOA_A1" ∨ var = "SOA_NA" then
    { values := da.values.map (· * 1000000000),
      attrs := setEntry "units" "$\\mu$g/kg" da.attrs }
  else if var = "cb_SOA_A1" ∨ var = "cb_SOA_NA" ∨ var = "cb_SOA_A1_OCW" ∨ var = "cb_SOA_NA_OCW" then
    { values := da.values.map (· * 1000000),
      attrs := setEntry "units" "mg/m$^2$" da.attrs }
  else if var = "ACTNL" then
    { values := da.values.map (· * 1000000),
      attrs := setEntry "units" "cm$^{-3}$" da.attrs }
  else if var = "CDNUMC" then
    { values := da.values.map (· * (1 / 10000000000)),
      attrs := setEntry "units" "1e6 cm$^{-2}$" da.attrs }
  else if var = "CLDHGH" ∨ var = "CLDLOW" ∨ var = "CLDMED" ∨ var = "CLDMED" then
    { values := da.values.map (· * 1000),
      attrs := setEntry "units" "g/kg" da.attrs }
  else if var = "CLDLIQ" then
    { values := da.values.map (· * 1000000),
      attrs := setEntry "units" "mg/kg" da.attrs }
  else if var = "TGCLDLWP" then
    { values := da.values.map (· * 1000),
      attrs := setEntry "units" "g/m$^2$" da.attrs }
  else if var = "QFLX_EVAP_TOT" then
    { values := da.values.map (· * (60 * 60 * 24)),
      attrs := setEntry "units" "mm/day" da.attrs }
  else if var = "FLNT" ∨ var = "FSNT" ∨ var = "FLNT_DRF" ∨ var = "FLNTCDRF" ∨
          var = "FSNT_DRF" ∨ var = "FSNTCDRF" ∨ var = "LHFLX" ∨ var = "SHFLX" then
    { values := da.values, attrs := setEntry "units" "W/m$^2$" da.attrs }
  else da

/-- `fix_units(ds)`: deep-copy the dataset, then rescale/relabel each
variable according to the chain above. The source mutates the copy variable
by variable over `list(ds_.keys())`; each variable is visited once, so the
loop is a map over the entries. -/
def fix_units (ds : Dataset) : Dataset :=
  { ds with data_vars := ds.data_vars.map (fun p => (p.1, fixUnitsVar p.1 p.2)) }

-- ## fix_names (lines 222-279)

/-- xarray `DataArray.rename(new_name)` returns a renamed copy of the
array; the binding of the array inside its dataset is untouched. The name
itself lives in the dataset key in this embedding, so the returned copy
carries the same payload. In the source the returned copy is discarded. -/
def DataArray.rename (da : DataArray) (_newName : String) : DataArray := da

/-- The branch of the `fix_names` loop body taken for variable `var`: the
six SOA variables get a new `long_name`; for `TGCLDLWP` and
`QFLX_EVAP_TOT` a rename is attempted (its result is discarded, as in the
source) and a `CLM5_name` attribute is set. -/
def fixNamesVar (var : String) (da : DataArray) : DataArray :=
  if var = "SOA_A1" then
    { da with attrs := setEntry "long_name" "SOA_A1 concentration - SOA condensate on existing particles from SOAGSV (gas)" da.attrs }
  else if var = "SOA_NA" then
    { da with attrs := setEntry "long_name" "SOA_NA concentration - SOA formed by co-nucleation with SO4" da.attrs }
  else if var = "cb_SOA_A1" then
    { da with attrs := setEntry "long_name" "SOA_A1 burden column - SOA condensate on existing particles from SOAGSV (gas)" da.attrs }
  else if var = "cb_SOA_NA" then
    { da with attrs := setEntry "long_name" "SOA_NA burden column - SOA formed by co-nucleation with SO4" da.attrs }
  else if var = "cb_SOA_A1_OCW" then
    { da with attrs := setEntry "long_name" "SOA_A1 burden column in cloud water - SOA condensate on existing particles from SOAGSV (gas)" da.attrs }
  else if var = "cb_SOA_NA_OCW" then
    { da with attrs := setEntry "long_name" "SOA_NA burden column in cloud water - SOA formed by co-nucleation with SO4" da.attrs }
  else if var = "TGCLDLWP" then
    let _discarded := da.rename "LWP"
    { da with attrs := setEntry "CLM5_name" "TGCLDLWP" da.attrs }
  else if var = "QFLX_EVAP_TOT" then
    let _discarded := da.rename "ET"
    { da with attrs := setEntry "CLM5_name" "QFLX_EVAP_TOT" da.attrs }
  else da

/-- `fix_names(ds)`: deep-copy the dataset and apply the loop above to
each variable. -/
def fix_names (ds : Dataset) : Dataset :=
  { ds with data_vars := ds.data_vars.map (fun p => (p.1, fixNamesVar p.1 p.2)) }

/-- The variable names whose entries the `fix_names` loop touches at all. -/
def fix_names_touched : List String :=
  ["SOA_A1", "SOA_NA", "cb_SOA_A1", "cb_SOA_NA", "cb_SOA_A1_OCW", "cb_SOA_NA_OCW",
   "TGCLDLWP", "QFLX_EVAP_TOT"]

-- ## aerosol_cloud_forcing_scomposition_Ghan (lines 283-371)

/-- A Python value, as far as the membership test of the decomposition
guard needs: the elements of `list(ds.data_vars)` are strings, and the
left operand of `in` is a list of strings. -/
inductive PyVal where
  | str : String → PyVal
  | strList : List String → PyVal
  deriving DecidableEq

/-- Python `x in xs`: some element of `xs` compares equal to `x`. A Python
list never compares equal to a string, which the derived equality captures
by constructor mismatch. -/
def pyIn (x : PyVal) (xs : List PyVal) : Bool := xs.any (fun y => x == y)

/-- The six prerequisite flux variables of the decomposition, in the order
the guard writes them. -/
def ghanPrereqVars : List String :=
  ["FLNT", "FSNT", "FLNT_DRF", "FLNTCDRF", "FSNTCDRF", "FSNT_DRF"]

/-- Variable read `ds_[v]` inside the decomposition body. The source would
raise `KeyError` on a missing name; the body only runs under its guard
(meant to ensure the six prerequisites are present), so the default is
never reached on the inputs the source intends. -/
def getVarD (ds : Dataset) (v : String) : DataArray :=
  (lookupTable v ds.data_vars).getD ⟨[], []⟩

/-- Variable write `ds_[v] = da`. -/
def setVar (ds : Dataset) (v : String) (da : DataArray) : Dataset :=
  { ds with data_vars := setEntry v da ds.data_vars }

/-- Attribute write `ds_[v].attrs[k] = s` (no-op when `v` is absent, which
cannot happen right after `setVar v`). -/
def setVarAttr (ds : Dataset) (v k s : String) : Dataset :=
  match lookupTable v ds.data_vars with
  | some da => setVar ds v { da with attrs := setEntry k s da.attrs }
  | none => ds

/-- Attribute read `ds_[v].attrs[k]` inside the decomposition body (again
only reached under the guard). -/
def getVarAttrD (ds : Dataset) (v k : String) : String :=
  ((lookupTable v ds.data_vars).map (fun da => (lookupTable k da.attrs).getD "")).getD ""

/-- xarray binary arithmetic on aligned arrays: elementwise, and the
result's attribute dictionary is empty (`keep_attrs` defaults to off). -/
def DataArray.sub (a b : DataArray) : DataArray :=
  ⟨a.values.zipWith (· - ·) b.values, []⟩

def DataArray.add (a b : DataArray) : DataArray :=
  ⟨a.values.zipWith (· + ·) b.values, []⟩

/-- xarray unary minus: elementwise negation (attributes of the operand are
kept; every use in the source overwrites them right after anyway). -/
def DataArray.neg (a : DataArray) : DataArray :=
  ⟨a.values.map (fun x => -x), a.attrs⟩

/-- The `for var in Ghan_vars` loop of the decomposition body: the eight
derived variables, assigned in order, each with its `units` (copied from a
source variable) and `long_name` attributes; `SW_rest` and `LW_rest` are
copies of the clear-sky fluxes (attributes included) with a new
`long_name`. Later formulas read variables assigned by earlier ones
(`DIR` reads `SWDIR` and `LWDIR`). -/
def applyGhanFormulas (ds : Dataset) : Dataset :=
  let d1 := setVar ds "SWDIR" ((getVarD ds "FSNT").sub (getVarD ds "FSNT_DRF"))
  let d1 := setVarAttr d1 "SWDIR" "units" (getVarAttrD d1 "FSNT_DRF" "units")
  let d1 := setVarAttr d1 "SWDIR" "long_name" "Shortwave aerosol direct radiative forcing - Ghan's scomposition"
  let d2 := setVar d1 "LWDIR" (((getVarD d1 "FLNT").sub (getVarD d1 "FLNT_DRF")).neg)
  let d2 := setVarAttr d2 "LWDIR" "units" (getVarAttrD d2 "FLNT_DRF" "units")
  let d2 := setVarAttr d2 "LWDIR" "long_name" "Longwave aerosol direct radiative forcing - Ghan's scomposition"
  let d3 := setVar d2 "DIR" ((getVarD d2 "LWDIR").add (getVarD d2 "SWDIR"))
  let d3 := setVarAttr d3 "DIR" "units" (getVarAttrD d3 "LWDIR" "units")
  let d3 := setVarAttr d3 "DIR" "long_name" "Net aerosol direct radiative forcing - Ghan's scomposition"
  let d4 := setVar d3 "SWCF" ((getVarD d3 "FSNT_DRF").sub (getVarD d3 "FSNTCDRF"))
  let d4 := setVarAttr d4 "SWCF" "units" (getVarAttrD d4 "FSNT_DRF" "units")
  let d4 := setVarAttr d4 "SWCF" "long_name" "Shortwave cloud radiative forcing - Ghan's scomposition"
  let d5 := setVar d4 "LWCF" (((getVarD d4 "FLNT_DRF").sub (getVarD d4 "FLNTCDRF")).neg)
  let d5 := setVarAttr d5 "LWCF" "units" (getVarAttrD d5 "FLNT_DRF" "units")
  let d5 := setVarAttr d5 "LWCF" "long_name" "Longwave cloud radiative forcing - Ghan's scomposition"
  let d6 := setVar d5 "NCFT" (((getVarD d5 "FSNT_DRF").sub (getVarD d5 "FSNTCDRF")).sub ((getVarD d5 "FLNT_DRF").sub (getVarD d5 "FLNTCDRF")))
  let d6 := setVarAttr d6 "NCFT" "units" (getVarAttrD d6 "FLNT_DRF" "units")
  let d6 := setVarAttr d6 "NCFT" "long_name" "Net cloud radiative forcing - Ghan's scomposition"
  let d7 := setVar d6 "SW_rest" (getVarD d6 "FSNTCDRF")
  let d7 := setVarAttr d7 "SW_rest" "long_name" "Shortwave surface albedo radiative forcing - Ghan's scomposition"
  let d8 := setVar d7 "LW_rest" (getVarD d7 "FLNTCDRF")
  let d8 := setVarAttr d8 "LW_rest" "long_name" "Clear sky total column longwave flux - Ghan's scomposition"
  d8

/-- The second loop of the decomposition body: attach `Ghan_name` and
`Ghan_long_name` attributes to the six prerequisite variables. -/
def ghanAnnotateVar (var : String) (da : DataArray) : DataArray :=
  if var = "FSNT" then
    { da with attrs := setEntry "Ghan_long_name" "Shortwave total forcing at TOA" (setEntry "Ghan_name" "SWTOT" da.attrs) }
  else if var = "FLNT" then
    { da with attrs := setEntry "Ghan_long_name" "Longwave total forcing at TOA" (setEntry "Ghan_name" "LWTOT" da.attrs) }
  else if var = "FSNT_DRF" then
    { da with attrs := setEntry "Ghan_long_name" "Shortwave without direct aerosol forcing (scattering, absorbing)" (setEntry "Ghan_name" "SW_clean" da.attrs) }
  else if var = "FSNTCDRF" then
    { da with attrs := setEntry "Ghan_long_name" "Shortwave without direct aerosol and cloud forcing" (setEntry "Ghan_name" "SW_clean_clear" da.attrs) }
  else if var = "FLNT_DRF" then
    { da with attrs := setEntry "Ghan_long_name" "Longwave without direct aerosol forcing (scattering, absorbing)" (setEntry "Ghan_name" "LW_clean" da.attrs) }
  else if var = "FLNTCDRF" then
    { da with attrs := setEntry "Ghan_long_name" "Longwave without direct aerosol and cloud forcing" (setEntry "Ghan_name" "LW_clean_clear" da.attrs) }
  else da

def ghanAnnotateAll (ds : Dataset) : Dataset :=
  { ds with data_vars := ds.data_vars.map (fun p => (p.1, ghanAnnotateVar p.1 p.2)) }

/-- `aerosol_cloud_forcing_scomposition_Ghan(ds)`: deep-copy the input,
and when the guard fires apply the formulas and the annotation loop. The
guard of the source is, verbatim,

  `if ['FLNT', 'FSNT', 'FLNT_DRF', 'FLNTCDRF', 'FSNTCDRF', 'FSNT_DRF'] in list(ds.data_vars):`

that is, a Python membership test asking whether the six-element list
itself is one of the variable-name strings of the dataset. -/
def aerosol_cloud_forcing_scomposition_Ghan (ds : Dataset) : Dataset :=
  let ds_ := ds
  if pyIn (PyVal.strList ghanPrereqVars) ((varNames ds).map PyVal.str) then
    ghanAnnotateAll (applyGhanFormulas ds_)
  else ds_

-- ## save_postprocessed (lines 375-397)

/-- `str(ds.time.dt.year.values[0]) + str(ds.time.dt.year.values[-1])`.
The source raises `IndexError` on an empty time coordinate; the embedding
returns `""` on that unreached input. -/
def save_date (ds : Dataset) : String :=
  match ds.time.head?, ds.time.getLast? with
  | some a, some b => toString a.year ++ toString b.year
  | _, _ => ""

/-- The category loop of `save_postprocessed`, carrying the running
variable list: each category appends its variables; at `RADIATIVE` the
Ghan variables and the turbulent fluxes are appended as well; at
`TURBFLUXES` the `continue` skips the write (after the append); every
other category emits one file `<alias>_<cat>_<date>.nc` with the running
list. -/
def savePlanLoop (comp casealias date : String) : List String → List String → List (String × List String)
  | [], _ => []
  | cat :: rest, vars =>
    let vars1 := vars ++ (lookupTable cat (variables_by_component comp true)).getD []
    let vars2 := if cat = "RADIATIVE" then vars1 ++ Ghan_vars ++ (lookupTable "TURBFLUXES" (variables_by_component comp true)).getD [] else vars1
    if cat = "TURBFLUXES" then savePlanLoop comp casealias date rest vars2
    else (casealias ++ "_" ++ cat ++ "_" ++ date ++ ".nc", vars2) :: savePlanLoop comp casealias date rest vars2

/-- The files `save_postprocessed` attempts to write, as (file name,
variable selection) pairs, in write order. -/
def save_plan (comp casealias date : String) (pressure_vars : Bool) : List (String × List String) :=
  let categories := (variables_by_component comp true).map Prod.fst
  let init :=
    if comp = "atm" then atm_always_include ++ (if pressure_vars then pressure_variables else [])
    else if comp = "lnd" then lnd_always_include
    else []
  savePlanLoop comp casealias date categories init

/-- Run the writes of a plan in order: each file's content is
`ds[variables]`, and a `KeyError` from a selection aborts the run (files
already written stay on disk; the return value only reports a full
success, as the source only returns after its loop). -/
def writeAll (ds : Dataset) : List (String × List String) → Except String (List (String × Dataset))
  | [] => .ok []
  | (name, vars) :: rest =>
    match dsSelect ds vars with
    | .error e => .error e
    | .ok d =>
      match writeAll ds rest with
      | .error e => .error e
      | .ok r => .ok ((name, d) :: r)

/-- `save_postprocessed(ds, component, processed_path, casealias,
pressure_vars)`: the written files as (name, content) pairs, or the first
selection error. The output directory path only prefixes the file names on
disk and is dropped from the embedding. -/
def save_postprocessed (ds : Dataset) (component casealias : String) (pressure_vars : Bool) : Except String (List (String × Dataset)) :=
  writeAll ds (save_plan component casealias (save_date ds) pressure_vars)

/-- The always-included selection seed of `save_postprocessed` (and of
`create_dataset`) for the atmosphere component. -/
def atmAlwaysIncluded (pv : Bool) : List String :=
  atm_always_include ++ (if pv then pressure_variables else [])

/-- The variable list of catalog category `cat` of component `comp` (with
the catalog's default `bvoc = True`, as `save_postprocessed` calls it). -/
def catVars (comp cat : String) : List String :=
  (lookupTable cat (variables_by_component comp true)).getD []

/-- The selection of the `RADIATIVE`-category file for the atmosphere
component: everything accumulated so far, the category itself, the eight
Ghan-decomposition names, and the turbulent fluxes folded in. -/
def radiativeFileVars (pv : Bool) : List String :=
  atmAlwaysIncluded pv ++ catVars "atm" "BVOC" ++ catVars "atm" "SOA" ++
    catVars "atm" "CLOUDPROP" ++ catVars "atm" "RADIATIVE" ++ Ghan_vars ++
    catVars "atm" "TURBFLUXES"

-- ## Concrete example datasets

/-- The synthetic decomposition input of the spec: the six prerequisite
fluxes with `FSNT=10, FSNT_DRF=7, FLNT=5, FLNT_DRF=3, FSNTCDRF=4,
FLNTCDRF=2` in consistent units. -/
def ghanSyntheticInput : Dataset :=
  { data_vars :=
      [("FLNT", ⟨[5], [("units", "W/m$^2$")]⟩),
       ("FSNT", ⟨[10], [("units", "W/m$^2$")]⟩),
       ("FLNT_DRF", ⟨[3], [("units", "W/m$^2$")]⟩),
       ("FLNTCDRF", ⟨[2], [("units", "W/m$^2$")]⟩),
       ("FSNTCDRF", ⟨[4], [("units", "W/m$^2$")]⟩),
       ("FSNT_DRF", ⟨[7], [("units", "W/m$^2$")]⟩)],
    time := [], timeAttrs := [], time_bnds := [] }

/-- The synthetic input with `FSNT_DRF` removed: one prerequisite flux of
the decomposition is missing. -/
def ghanMissingInput : Dataset :=
  { data_vars :=
      [("FLNT", ⟨[5], [("units", "W/m$^2$")]⟩),
       ("FSNT", ⟨[10], [("units", "W/m$^2$")]⟩),
       ("FLNT_DRF", ⟨[3], [("units", "W/m$^2$")]⟩),
       ("FLNTCDRF", ⟨[2], [("units", "W/m$^2$")]⟩),
       ("FSNTCDRF", ⟨[4], [("units", "W/m$^2$")]⟩)],
    time := [], timeAttrs := [], time_bnds := [] }

/-- A one-step monthly dataset whose interval starts at the first instant
of February 2008 (a leap year). -/
def febBoundsInput : Dataset :=
  { data_vars := [],
    time := [⟨2008, 3, 1⟩],
    timeAttrs := [("long_name", "time"), ("bounds", "time_bnds")],
    time_bnds := [⟨2008, 2, 1⟩] }

/-- A three-step dataset used for the spin-up trimming example. -/
def threeStepInput : Dataset :=
  { data_vars := [],
    time := [⟨2008, 1, 15⟩, ⟨2008, 2, 15⟩, ⟨2008, 3, 15⟩],
    timeAttrs := [], time_bnds := [] }

/-- A dataset whose time coordinate runs from 2008 to 2012. -/
def fiveYearInput : Dataset :=
  { data_vars := [],
    time := [⟨2008, 1, 15⟩, ⟨2012, 12, 15⟩],
    timeAttrs := [], time_bnds := [] }

/-- A variable payload carrying a `units` attribute, for the metadata
examples. -/
def unitsOnlyArray : DataArray := ⟨[1], [("units", "kg/m2")]⟩

-- ## Helper lemmas

theorem lookupTable_setEntry_ne {α : Type} (k k' : String) (v : α) (l : List (String × α))
    (h : k ≠ k') : lookupTable k (setEntry k' v l) = lookupTable k l := by
  induction l with
  | nil => simp [setEntry, lookupTable, h]
  | cons p rest ih =>
    obtain ⟨a, b⟩ := p
    by_cases ha : a = k'
    · subst ha
      simp [setEntry, lookupTable, h, ih]
    · simp only [setEntry, lookupTable, if_neg ha]
      by_cases hk : k = a
      · simp [lookupTable, hk]
      · simp [lookupTable, hk, ih]

theorem daysInMonth_ge_28 (y : Int) (M : Nat) (h1 : 1 ≤ M) (h2 : M ≤ 12) :
    28 ≤ daysInMonth y M := by
  have hl : isLeapYear y = true ∨ isLeapYear y = false := by
    cases isLeapYear y <;> simp
  interval_cases M <;> rcases hl with h | h <;> simp [daysInMonth, h]

theorem addDays_of_le (d : Date) (n : Nat)
    (h : d.day + n ≤ daysInMonth d.year d.month) :
    addDays d n = ⟨d.year, d.month, d.day + n⟩ := by
  induction n with
  | zero => rfl
  | succ m ih =>
    have hm : d.day + m ≤ daysInMonth d.year d.month := by omega
    have hlt : d.day + m < daysInMonth d.year d.month := by omega
    simp only [addDays, ih hm, nextDay, hlt, if_pos]
    rfl

theorem pyIn_strList_false (l : List String) (names : List String) :
    pyIn (PyVal.strList l) (names.map PyVal.str) = false := by
  simp only [pyIn, List.any_eq_false]
  intro y hy
  obtain ⟨s, _, rfl⟩ := List.mem_map.mp hy
  simp

/-- The decomposition guard compares a whole Python list against each
variable-name string, so it is false on every dataset and the function is
the identity. -/
theorem ghan_noop (ds : Dataset) :
    aerosol_cloud_forcing_scomposition_Ghan ds = ds := by
  simp [aerosol_cloud_forcing_scomposition_Ghan, pyIn_strList_false]

theorem writeAll_ok_mem (ds : Dataset) (plan : List (String × List String))
    (r : List (String × Dataset)) (h : writeAll ds plan = .ok r) :
    ∀ p ∈ plan, ∃ d, dsSelect ds p.2 = .ok d := by
  induction plan generalizing r with
  | nil => simp
  | cons q rest ih =>
    obtain ⟨name, vars⟩ := q
    intro p hp
    simp only [writeAll] at h
    cases hsel : dsSelect ds vars with
    | error e => rw [hsel] at h; exact absurd h (by simp)
    | ok d =>
      rw [hsel] at h
      cases hrest : writeAll ds rest with
      | error e => rw [hrest] at h; exact absurd h (by simp)
      | ok rr =>
        rcases List.mem_cons.mp hp with rfl | hmem
        · exact ⟨d, hsel⟩
        · exact ih rr hrest p hmem

theorem map_fst_map_pair (f : String → DataArray → DataArray) (l : List (String × DataArray)) :
    (l.map (fun p => (p.1, f p.1 p.2))).map Prod.fst = l.map Prod.fst := by
  induction l with
  | nil => rfl
  | cons p rest ih => simp [ih]

-- ## Claim theorems

/-- C1, counterexample: on the synthetic input all six prerequisite fluxes
are present with the stated values, yet the decomposition returns its
input unchanged and adds none of the eight derived variables (the guard
asks whether the six-element list itself is one of the variable-name
strings, which is never true in Python). -/
theorem ghan_synthetic_input_unchanged :
    (∀ v ∈ ghanPrereqVars, v ∈ varNames ghanSyntheticInput) ∧
    aerosol_cloud_forcing_scomposition_Ghan ghanSyntheticInput = ghanSyntheticInput ∧
    lookupTable "SWDIR" (aerosol_cloud_forcing_scomposition_Ghan ghanSyntheticInput).data_vars = none := by
  decide

/-- C1, amended: `aerosol_cloud_forcing_scomposition_Ghan` returns every
dataset unchanged, because its presence guard compares the whole
six-name list against each variable-name string and so never fires; and
the decomposition formulas themselves, applied to the synthetic input
`FSNT=10, FSNT_DRF=7, FLNT=5, FLNT_DRF=3, FSNTCDRF=4, FLNTCDRF=2`, yield
`SWDIR=3, LWDIR=-2, DIR=1, SWCF=3, LWCF=-1, NCFT=2, SW_rest=4, LW_rest=2`
— `NCFT = (7-4) - (3-2) = 2`, not the 4 the claim states. -/
theorem ghan_decomposition_corrected :
    (∀ ds : Dataset, aerosol_cloud_forcing_scomposition_Ghan ds = ds) ∧
    (applyGhanFormulas ghanSyntheticInput).data_vars.map (fun p => (p.1, p.2.values)) =
      [("FLNT", [5]), ("FSNT", [10]), ("FLNT_DRF", [3]), ("FLNTCDRF", [2]),
       ("FSNTCDRF", [4]), ("FSNT_DRF", [7]),
       ("SWDIR", [3]), ("LWDIR", [-2]), ("DIR", [1]), ("SWCF", [3]),
       ("LWCF", [-1]), ("NCFT", [2]), ("SW_rest", [4]), ("LW_rest", [2])] := by
  refine ⟨ghan_noop, ?_⟩
  simp [applyGhanFormulas, getVarD, setVar, setVarAttr, getVarAttrD, lookupTable,
        setEntry, DataArray.sub, DataArray.add, DataArray.neg, ghanSyntheticInput]
  norm_num

/-- C3: an input missing at least one of the six prerequisite flux
variables is returned unchanged by the decomposition, with no derived
variables added (the source returns a deep copy of the input, which is
value- and attribute-equal to it). -/
theorem ghan_missing_prereq_is_noop (ds : Dataset)
    (_h : ∃ v ∈ ghanPrereqVars, v ∉ varNames ds) :
    aerosol_cloud_forcing_scomposition_Ghan ds = ds :=
  ghan_noop ds

theorem ghan_missing_prereq_is_noop_witness :
    ("FSNT_DRF" ∈ ghanPrereqVars ∧ "FSNT_DRF" ∉ varNames ghanMissingInput) ∧
    aerosol_cloud_forcing_scomposition_Ghan ghanMissingInput = ghanMissingInput :=
  ⟨⟨by decide, by decide⟩,
   ghan_missing_prereq_is_noop ghanMissingInput ⟨"FSNT_DRF", by decide, by decide⟩⟩

/-- C8: a `timetype` that is neither supported mode makes `fix_cam_time`
raise `ValueError`; the error branch is reached before any coordinate
assignment, so no partial result exists (the embedding is pure and the
error carries no dataset). -/
theorem fix_cam_time_invalid_mode (ds : Dataset) (timetype : String)
    (h1 : timetype ≠ "DatetimeNoLeap") (h2 : timetype ≠ "datetime64") :
    fix_cam_time ds timetype =
      .error "time type not supported. Choose 'DatetimeNoLeap' or 'datetime64'" := by
  simp [fix_cam_time, h1, h2]

theorem fix_cam_time_invalid_mode_witness :
    (("cftime" : String) ≠ "DatetimeNoLeap" ∧ ("cftime" : String) ≠ "datetime64") ∧
    fix_cam_time febBoundsInput "cftime" =
      .error "time type not supported. Choose 'DatetimeNoLeap' or 'datetime64'" :=
  ⟨⟨by decide, by decide⟩,
   fix_cam_time_invalid_mode febBoundsInput "cftime" (by decide) (by decide)⟩

/-- C4: in both supported modes, an interval whose start bound is the
first instant of month `M` of year `Y` gets the representative timestamp
day 15 of month `M` of year `Y`, and the reassigned time coordinate keeps
the original coordinate attributes. -/
theorem fix_cam_time_maps_to_day15 (ds : Dataset) (i : Nat) (Y : Int) (M : Nat)
    (timetype : String) (hM1 : 1 ≤ M) (hM2 : M ≤ 12)
    (hb : ds.time_bnds[i]? = some ⟨Y, M, 1⟩)
    (ht : timetype = "DatetimeNoLeap" ∨ timetype = "datetime64") :
    ∃ out, fix_cam_time ds timetype = .ok out ∧
      out.time[i]? = some ⟨Y, M, 15⟩ ∧ out.timeAttrs = ds.timeAttrs := by
  rcases ht with rfl | rfl
  · refine ⟨_, rfl, ?_, rfl⟩
    simp [fix_cam_time, List.getElem?_map, hb]
  · refine ⟨_, rfl, ?_, rfl⟩
    have h15 : addDays ⟨Y, M, 1⟩ 14 = ⟨Y, M, 15⟩ := by
      have h28 := daysInMonth_ge_28 Y M hM1 hM2
      have := addDays_of_le ⟨Y, M, 1⟩ 14 (by simpa using by omega)
      simpa using this
    simp [fix_cam_time, List.getElem?_map, hb, h15]

theorem fix_cam_time_maps_to_day15_witness :
    ((1 : Nat) ≤ 2 ∧ (2 : Nat) ≤ 12 ∧ febBoundsInput.time_bnds[0]? = some ⟨2008, 2, 1⟩) ∧
    ∃ out, fix_cam_time febBoundsInput "datetime64" = .ok out ∧
      out.time[0]? = some ⟨2008, 2, 15⟩ ∧ out.timeAttrs = febBoundsInput.timeAttrs :=
  ⟨⟨by decide, by decide, by decide⟩,
   fix_cam_time_maps_to_day15 febBoundsInput 0 2008 2 "datetime64"
     (by decide) (by decide) (by decide) (Or.inr rfl)⟩

/-- C2, counterexample: `OFF_LND` contains the substring `OFF` (at index
0, so `casename.find('OFF') > 0.` is false), yet the selection built by
`create_dataset` for the land component includes the biogenic-emission
variables. -/
theorem lnd_selection_OFF_at_start_keeps_MEG :
    (strContains "OFF_LND" "OFF" = true ∧ strFind "OFF_LND" "OFF" = 0) ∧
    "MEG_isoprene" ∈ create_dataset_selected_vars "lnd" "OFF_LND" false := by
  decide

/-- C2, amended: the land selection excludes the MEG biogenic-emission
list exactly when `OFF` occurs at a position strictly after the start of
the case identifier (`casename.find('OFF') > 0`); when `OFF` is absent or
occurs only at index 0, the list is included. -/
theorem lnd_selection_MEG_by_find (casename : String) (pv : Bool) :
    (strFind casename "OFF" > 0 →
      ∀ v ∈ MEG_vars, v ∉ create_dataset_selected_vars "lnd" casename pv) ∧
    (strFind casename "OFF" ≤ 0 →
      ∀ v ∈ MEG_vars, v ∈ create_dataset_selected_vars "lnd" casename pv) := by
  have hsel : create_dataset_selected_vars "lnd" casename pv =
      lnd_always_include ++ ((variables_by_component "lnd"
        (if strFind casename "OFF" > 0 then false else true)).map Prod.snd).flatten := by
    simp [create_dataset_selected_vars]
  constructor
  · intro h
    rw [hsel, if_pos h]
    decide
  · intro h
    rw [hsel, if_neg (by omega)]
    decide

theorem lnd_selection_MEG_by_find_witness :
    (strFind "X-OFF" "OFF" > 0 ∧
      "MEG_isoprene" ∉ create_dataset_selected_vars "lnd" "X-OFF" false) ∧
    (strFind "CTRL" "OFF" ≤ 0 ∧
      "MEG_isoprene" ∈ create_dataset_selected_vars "lnd" "CTRL" false) :=
  ⟨⟨by decide, (lnd_selection_MEG_by_find "X-OFF" false).1 (by decide) "MEG_isoprene" (by decide)⟩,
   ⟨by decide, (lnd_selection_MEG_by_find "CTRL" false).2 (by decide) "MEG_isoprene" (by decide)⟩⟩

/-- C7: with `K` spin-up months and `N` time steps (`K < N`), the dataset
`create_dataset` returns has exactly `N - K` time steps, the original
steps `K+1 .. N` in order (whether or not the catalog selection is
applied afterwards). -/
theorem create_dataset_spinup_trim (ds out : Dataset)
    (casename comp history_field : String) (full_dset pv : Bool) (K N : Nat)
    (hN : ds.time.length = N) (_hK : K < N)
    (hrun : create_dataset_post ds casename comp history_field full_dset none K pv = .ok out) :
    out.time.length = N - K ∧ ∀ i, i < N - K → out.time[i]? = ds.time[K + i]? := by
  by_cases hc : comp ≠ "atm" ∧ comp ≠ "lnd"
  · rw [create_dataset_post, if_pos hc] at hrun
    exact absurd hrun (by simp)
  · have hrun' :
        (if full_dset then Except.ok { ds with time := ds.time.drop K }
         else dsSelect { ds with time := ds.time.drop K }
                (create_dataset_selected_vars comp casename pv)) = Except.ok out := by
      rw [create_dataset_post, if_neg hc] at hrun
      exact hrun
    have hout : out.time = ds.time.drop K := by
      by_cases hf : full_dset
      · rw [if_pos hf] at hrun'
        injection hrun' with h
        rw [← h]
      · rw [if_neg hf] at hrun'
        by_cases hall : ∀ v ∈ create_dataset_selected_vars comp casename pv,
            v ∈ varNames { ds with time := ds.time.drop K }
        · rw [dsSelect, if_pos hall] at hrun'
          injection hrun' with h
          rw [← h]
        · rw [dsSelect, if_neg hall] at hrun'
          exact absurd hrun' (by simp)
    constructor
    · rw [hout, List.length_drop, hN]
    · intro i _
      rw [hout, List.getElem?_drop]

theorem create_dataset_spinup_trim_witness :
    (threeStepInput.time.length = 3 ∧ 1 < 3 ∧
      create_dataset_post threeStepInput "CTRL" "atm" "h0" true none 1 false =
        .ok { threeStepInput with time := [⟨2008, 2, 15⟩, ⟨2008, 3, 15⟩] }) ∧
    ({ threeStepInput with time := [⟨2008, 2, 15⟩, ⟨2008, 3, 15⟩] } : Dataset).time.length = 3 - 1 ∧
    ∀ i, i < 3 - 1 →
      ({ threeStepInput with time := [⟨2008, 2, 15⟩, ⟨2008, 3, 15⟩] } : Dataset).time[i]? =
        threeStepInput.time[1 + i]? :=
  ⟨⟨by decide, by decide, by rfl⟩,
   create_dataset_spinup_trim threeStepInput _ "CTRL" "atm" "h0" true false 1 3
     (by decide) (by decide) (by rfl)⟩

/-- C6: `fix_units` maps each variable entry by name, and the branch taken
for a name agrees with a lookup in the two tables: a scale/unit entry
multiplies the values elementwise by the scale factor and replaces the
`units` attribute; a label-only entry replaces only the `units` attribute;
a name in neither table passes through unchanged in values and attributes.
The input dataset itself is untouched (the source mutates only its deep
copy; the embedding is pure). -/
theorem fix_units_matches_tables (ds : Dataset) :
    fix_units ds = { ds with data_vars := ds.data_vars.map (fun p => (p.1, fixUnitsVar p.1 p.2)) } ∧
    ∀ v da, fixUnitsVar v da =
      match lookupTable v unit_scale_table with
      | some (c, u) => { values := da.values.map (· * c), attrs := setEntry "units" u da.attrs }
      | none =>
        match lookupTable v unit_label_table with
        | some u => { values := da.values, attrs := setEntry "units" u da.attrs }
        | none => da := by
  refine ⟨rfl, ?_⟩
  intro v da
  by_cases h1 : v = "SFisoprene"
  · subst h1; rfl
  by_cases h2 : v = "SFmonoterp"
  · subst h2; rfl
  by_cases h3 : v = "SOA_A1"
  · subst h3; rfl
  by_cases h4 : v = "SOA_NA"
  · subst h4; rfl
  by_cases h5 : v = "cb_SOA_A1"
  · subst h5; rfl
  by_cases h6 : v = "cb_SOA_NA"
  · subst h6; rfl
  by_cases h7 : v = "cb_SOA_A1_OCW"
  · subst h7; rfl
  by_cases h8 : v = "cb_SOA_NA_OCW"
  · subst h8; rfl
  by_cases h9 : v = "ACTNL"
  · subst h9; rfl
  by_cases h10 : v = "CDNUMC"
  · subst h10; rfl
  by_cases h11 : v = "CLDHGH"
  · subst h11; rfl
  by_cases h12 : v = "CLDLOW"
  · subst h12; rfl
  by_cases h13 : v = "CLDMED"
  · subst h13; rfl
  by_cases h14 : v = "CLDLIQ"
  · subst h14; rfl
  by_cases h15 : v = "TGCLDLWP"
  · subst h15; rfl
  by_cases h16 : v = "QFLX_EVAP_TOT"
  · subst h16; rfl
  by_cases h17 : v = "FLNT"
  · subst h17; rfl
  by_cases h18 : v = "FSNT"
  · subst h18; rfl
  by_cases h19 : v = "FLNT_DRF"
  · subst h19; rfl
  by_cases h20 : v = "FLNTCDRF"
  · subst h20; rfl
  by_cases h21 : v = "FSNT_DRF"
  · subst h21; rfl
  by_cases h22 : v = "FSNTCDRF"
  · subst h22; rfl
  by_cases h23 : v = "LHFLX"
  · subst h23; rfl
  by_cases h24 : v = "SHFLX"
  · subst h24; rfl
  simp [fixUnitsVar, lookupTable, unit_scale_table, unit_label_table,
        h1, h2, h3, h4, h5, h6, h7, h8, h9, h10, h11, h12, h13, h14, h15, h16,
        h17, h18, h19, h20, h21, h22, h23, h24]

/-- C10: `fix_names` keeps the set (and order) of variable names exactly as
in the input — the attempted renames of `TGCLDLWP` and `QFLX_EVAP_TOT`
discard their results, so they have no effect — leaves every variable's
values unchanged, changes no attribute other than `long_name` and
`CLM5_name`, and leaves variables outside its dispatch list entirely
unchanged. The input dataset itself is untouched (deep copy; the embedding
is pure). -/
theorem fix_names_preserves_variable_names (ds : Dataset) :
    varNames (fix_names ds) = varNames ds ∧
    (∀ v da, (fixNamesVar v da).values = da.values) ∧
    (∀ v da k, k ≠ "long_name" → k ≠ "CLM5_name" →
      lookupTable k (fixNamesVar v da).attrs = lookupTable k da.attrs) ∧
    (∀ v da, v ∉ fix_names_touched → fixNamesVar v da = da) := by
  refine ⟨map_fst_map_pair fixNamesVar ds.data_vars, ?_, ?_, ?_⟩
  · intro v da
    unfold fixNamesVar
    split_ifs <;> rfl
  · intro v da k hk1 hk2
    unfold fixNamesVar
    split_ifs <;>
      first
        | rfl
        | exact lookupTable_setEntry_ne _ _ _ _ hk1
        | exact lookupTable_setEntry_ne _ _ _ _ hk2
  · intro v da hv
    simp only [fix_names_touched, List.mem_cons, List.not_mem_nil, or_false, not_or] at hv
    obtain ⟨n1, n2, n3, n4, n5, n6, n7, n8⟩ := hv
    simp [fixNamesVar, n1, n2, n3, n4, n5, n6, n7, n8]

theorem fix_names_preserves_variable_names_witness :
    varNames (fix_names ghanSyntheticInput) = varNames ghanSyntheticInput ∧
    lookupTable "units" (fixNamesVar "TGCLDLWP" unitsOnlyArray).attrs =
      lookupTable "units" unitsOnlyArray.attrs ∧
    ("NUMLIQ" ∉ fix_names_touched ∧ fixNamesVar "NUMLIQ" unitsOnlyArray = unitsOnlyArray) :=
  ⟨(fix_names_preserves_variable_names ghanSyntheticInput).1,
   (fix_names_preserves_variable_names ghanSyntheticInput).2.2.1 "TGCLDLWP" unitsOnlyArray
     "units" (by decide) (by decide),
   by decide,
   (fix_names_preserves_variable_names ghanSyntheticInput).2.2.2 "NUMLIQ" unitsOnlyArray (by decide)⟩

/-- C5: `save_postprocessed` writes the files of `save_plan` in catalog
order: the start/end years of the date stamp come from the first and last
time values; for each category except `TURBFLUXES` there is exactly one
file named `<alias>_<category>_<date>.nc`, whose selection is the
always-included variables plus every category's variables up to and
including its own (cumulative), with the `TURBFLUXES` variables (and the
eight Ghan names) folded into the `RADIATIVE` file and no `TURBFLUXES`
file of its own. -/
theorem save_postprocessed_cumulative (ds : Dataset) (cas : String) (pv : Bool)
    (d0 dn : Date) (h0 : ds.time.head? = some d0) (hn : ds.time.getLast? = some dn) :
    save_date ds = toString d0.year ++ toString dn.year ∧
    save_postprocessed ds "atm" cas pv = writeAll ds (save_plan "atm" cas (save_date ds) pv) ∧
    save_postprocessed ds "lnd" cas pv = writeAll ds (save_plan "lnd" cas (save_date ds) pv) ∧
    save_plan "atm" cas (save_date ds) pv =
      [(cas ++ "_" ++ "BVOC" ++ "_" ++ save_date ds ++ ".nc",
        atmAlwaysIncluded pv ++ catVars "atm" "BVOC"),
       (cas ++ "_" ++ "SOA" ++ "_" ++ save_date ds ++ ".nc",
        atmAlwaysIncluded pv ++ catVars "atm" "BVOC" ++ catVars "atm" "SOA"),
       (cas ++ "_" ++ "CLOUDPROP" ++ "_" ++ save_date ds ++ ".nc",
        atmAlwaysIncluded pv ++ catVars "atm" "BVOC" ++ catVars "atm" "SOA" ++
          catVars "atm" "CLOUDPROP"),
       (cas ++ "_" ++ "RADIATIVE" ++ "_" ++ save_date ds ++ ".nc", radiativeFileVars pv)] ∧
    save_plan "lnd" cas (save_date ds) pv =
      [(cas ++ "_" ++ "LAND" ++ "_" ++ save_date ds ++ ".nc",
        lnd_always_include ++ catVars "lnd" "LAND"),
       (cas ++ "_" ++ "BIOGEOCHEM" ++ "_" ++ save_date ds ++ ".nc",
        lnd_always_include ++ catVars "lnd" "LAND" ++ catVars "lnd" "BIOGEOCHEM"),
       (cas ++ "_" ++ "ET" ++ "_" ++ save_date ds ++ ".nc",
        lnd_always_include ++ catVars "lnd" "LAND" ++ catVars "lnd" "BIOGEOCHEM" ++
          catVars "lnd" "ET")] := by
  refine ⟨?_, rfl, rfl, rfl, rfl⟩
  rw [save_date, h0, hn]

theorem save_postprocessed_cumulative_witness :
    (fiveYearInput.time.head? = some ⟨2008, 1, 15⟩ ∧
      fiveYearInput.time.getLast? = some ⟨2012, 12, 15⟩) ∧
    save_date fiveYearInput = toString (2008 : Int) ++ toString (2012 : Int) :=
  ⟨⟨by decide, by decide⟩,
   (save_postprocessed_cumulative fiveYearInput "IDEAL" true ⟨2008, 1, 15⟩ ⟨2012, 12, 15⟩
     (by decide) (by decide)).1⟩

/-- C9: the selection of the atmosphere `RADIATIVE` file unconditionally
contains the eight Ghan-decomposition names, so on a dataset missing any
of them the `RADIATIVE` write raises `KeyError` instead of skipping the
missing variables, and the run never succeeds. -/
theorem save_requires_ghan_vars (ds : Dataset) (cas : String) (pv : Bool) (v : String)
    (hv : v ∈ Ghan_vars) (hmiss : v ∉ varNames ds) :
    (save_plan "atm" cas (save_date ds) pv)[3]? =
      some (cas ++ "_" ++ "RADIATIVE" ++ "_" ++ save_date ds ++ ".nc", radiativeFileVars pv) ∧
    v ∈ radiativeFileVars pv ∧
    (∃ e, dsSelect ds (radiativeFileVars pv) = .error e) ∧
    ∀ r, save_postprocessed ds "atm" cas pv ≠ .ok r := by
  have hmem : v ∈ radiativeFileVars pv := by
    simp only [radiativeFileVars, List.mem_append]
    tauto
  have hno : ¬ ∀ w ∈ radiativeFileVars pv, w ∈ varNames ds := fun hyp => hmiss (hyp v hmem)
  have hsel : dsSelect ds (radiativeFileVars pv) =
      .error "KeyError: a selected variable is not in the dataset" := by
    rw [dsSelect, if_neg hno]
  refine ⟨rfl, hmem, ⟨_, hsel⟩, ?_⟩
  intro r hok
  have hentry : (cas ++ "_" ++ "RADIATIVE" ++ "_" ++ save_date ds ++ ".nc",
      radiativeFileVars pv) ∈ save_plan "atm" cas (save_date ds) pv := by
    have h3 : (save_plan "atm" cas (save_date ds) pv)[3]? =
        some (cas ++ "_" ++ "RADIATIVE" ++ "_" ++ save_date ds ++ ".nc",
          radiativeFileVars pv) := rfl
    obtain ⟨hlt, hval⟩ := List.getElem?_eq_some_iff.mp h3
    exact hval ▸ List.getElem_mem hlt
  obtain ⟨d, hd⟩ := writeAll_ok_mem ds _ r hok _ hentry
  rw [hsel] at hd
  exact absurd hd (by simp)

theorem save_requires_ghan_vars_witness :
    ("SWDIR" ∈ Ghan_vars ∧ "SWDIR" ∉ varNames ghanMissingInput) ∧
    (∃ e, dsSelect ghanMissingInput (radiativeFileVars true) = .error e) ∧
    ∀ r, save_postprocessed ghanMissingInput "atm" "IDEAL" true ≠ .ok r :=
  ⟨⟨by decide, by decide⟩,
   (save_requires_ghan_vars ghanMissingInput "IDEAL" true "SWDIR" (by decide) (by decide)).2.2.1,
   (save_requires_ghan_vars ghanMissingInput "IDEAL" true "SWDIR" (by decide) (by decide)).2.2.2⟩

end Postprocess
